import Mathlib

/-
  A shallow embedding of `src/sellsyapi/client.py` (class SellsyAPI) and proofs about
  its token lifecycle, request preparation and retry behaviour.

  Conventions of the embedding:
  * Python `time()` is modelled as an explicit natural number `now`, held constant
    during a single operation.
  * A Python dict is an insertion-ordered association list with unique keys.
  * Raising an exception is modelled with `Except`.
  * The network is modelled by explicit oracles: `AuthResult` for the reply of the
    authentication endpoint, and a function from the attempt index to a `ReqOutcome`
    for the API upstream.
-/

namespace SellsyAPI

/-- Values stored in the Python dicts used as query parameters and request bodies. -/
inductive PVal where
  | str (v : String)
  | num (v : Int)
deriving DecidableEq

/-- A Python dict with string keys: an insertion-ordered association list whose keys
are unique; lookup returns the first binding. -/
abbrev Dict (α : Type) := List (String × α)

/-- Python `d.get(k)` / `d[k]` lookup. -/
def dget {α : Type} : Dict α → String → Option α
  | [], _ => none
  | (k', v) :: rest, k => if k' = k then some v else dget rest k

/-- Python `k in d`. -/
def hasKey {α : Type} (d : Dict α) (k : String) : Bool :=
  (dget d k).isSome

/-- Python `d.setdefault(k, v)`: appends the binding (k, v) iff k is absent.
In Python this mutates the dict object in place. -/
def setdefault {α : Type} (d : Dict α) (k : String) (v : α) : Dict α :=
  if hasKey d k then d else d ++ [(k, v)]

/-- Python `params or ...` for an optional dict argument: None and the empty dict are
falsy and are replaced by a fresh empty dict; a non-empty dict is used as is (the
very same object, which matters for mutation visibility). -/
def orElseEmpty (x : Option (Dict PVal)) : Dict PVal :=
  match x with
  | none => []
  | some d => if d = [] then [] else d

/-- Status and JSON body of a reply from the authentication endpoint
(`POST https://login.sellsy.com/oauth2/access-tokens`, client.py lines 52-57).
Only the two body fields the client reads are modelled, by their presence. -/
structure AuthResponse where
  status : Nat
  access_token : Option String
  expires_in : Option Nat
deriving DecidableEq

/-- Outcome of the `post(self.auth_url, ...)` call: either a RequestException
(connection error or timeout) before any response exists, or a response. -/
inductive AuthResult where
  | netError
  | response (r : AuthResponse)
deriving DecidableEq

/-- The Python exceptions the modelled code can raise. `runtimeError` is the
`RuntimeError` raised by `_request_new_token` — the error the specification calls
`AuthenticationError`. `keyError` is a missing-dict-key error; `attributeError` is a
failed attribute lookup. -/
inductive PyError where
  | runtimeError (msg : String)
  | keyError (k : String)
  | attributeError (attr : String)
deriving DecidableEq

/-- Whether an error is the one the specification names `AuthenticationError`. -/
def isAuthError : PyError → Bool
  | .runtimeError _ => true
  | _ => false

/-- requests' `Response.raise_for_status` raises `HTTPError` exactly for the 4xx and
5xx status ranges. -/
def raisesForStatus (status : Nat) : Bool :=
  decide (400 ≤ status) && decide (status < 600)

/-- The message prefix of the `RuntimeError` raised at client.py line 63. -/
def authFailMsg : String := "Failed to obtain access token"

/-- `_request_new_token` (client.py lines 42-63): posts the client-credentials grant;
any `RequestException` (network error, timeout, or the `HTTPError` raised by
`raise_for_status` on a 4xx/5xx reply) is caught and re-raised as the
`RuntimeError` (spec: `AuthenticationError`). Otherwise the code evaluates
`time() + res["expires_in"]` and then `res['access_token']`; a missing field raises
`KeyError`, which is not a `RequestException` and therefore escapes unwrapped.
On success returns the pair (access_token, expiry = now + expires_in). -/
def request_new_token (now : Nat) (auth : AuthResult) : Except PyError (String × Nat) :=
  match auth with
  | .netError => .error (.runtimeError authFailMsg)
  | .response r =>
    if raisesForStatus r.status then
      .error (.runtimeError authFailMsg)
    else
      match r.expires_in with
      | none => .error (.keyError "expires_in")
      | some ei =>
        match r.access_token with
        | none => .error (.keyError "access_token")
        | some tok => .ok (tok, now + ei)

/-- The token fields of a constructed client: `self.access_token` and
`self.token_expiry` (client.py line 32). -/
structure ClientState where
  access_token : String
  token_expiry : Nat
deriving DecidableEq

/-- `__init__` line 32: the eager token fetch. If `_request_new_token` raises, the
exception propagates out of the constructor and no client state exists. -/
def init_client (now : Nat) (auth : AuthResult) : Except PyError ClientState :=
  match request_new_token now auth with
  | .error e => .error e
  | .ok (tok, exp) => .ok ⟨tok, exp⟩

/-- `_get_access_token` (client.py lines 34-40): if `time() >= self.token_expiry` a
new token is requested and stored, then `self.access_token` is returned. The result
carries the returned token together with the updated client state. -/
def get_access_token (now : Nat) (auth : AuthResult) (s : ClientState) :
    Except PyError (String × ClientState) :=
  if s.token_expiry ≤ now then
    match request_new_token now auth with
    | .error e => .error e
    | .ok (tok, exp) => .ok (tok, ⟨tok, exp⟩)
  else
    .ok (s.access_token, s)

/-- The request body after line 97: `dumps(data)` when the content type is
application/json, the dict passed through untouched otherwise. -/
inductive Payload where
  | jsonDumped (d : Dict PVal)
  | rawDict (d : Dict PVal)
deriving DecidableEq

def api_base_url : String := "https://api.sellsy.com/v2/"

/-- `self.post_content_type` (client.py lines 19-29), in source order. -/
def post_content_type : Dict String :=
  [("batch", "text/plain"),
   ("opportunities/search", "application/json"),
   ("individuals/search", "application/json"),
   ("invoices/search", "application/json"),
   ("credit-notes/search", "application/json"),
   ("estimates/search", "application/json"),
   ("comments/search", "application/json"),
   ("companies/search", "application/json"),
   ("contacts/search", "application/json")]

/-- `self.post_content_type.get(endpoint, "application/json")` (line 94). -/
def content_type_for (endpoint : String) : String :=
  (dget post_content_type endpoint).getD "application/json"

/-- Everything `_request` computes before its attempt loop (lines 88-97): the merged
query parameters, the headers, the url and the serialized body. -/
structure PreparedRequest where
  params : Dict PVal
  headers : Dict String
  url : String
  payload : Payload
deriving DecidableEq

/-- Lines 88-97 of `_request`: `params = params or ...` replaces a falsy params by a
fresh empty dict, `params.setdefault('limit', 100)` inserts the default page size,
the same falsy-replacement is applied to `data`, the Authorization header is built
from the cached `self.access_token`, the Content-Type comes from the endpoint policy
with default application/json, and the body is JSON-serialized exactly when the
content type is application/json. -/
def prepare_request (access_token : String) (endpoint : String)
    (params0 : Option (Dict PVal)) (data0 : Option (Dict PVal)) : PreparedRequest :=
  let params := setdefault (orElseEmpty params0) "limit" (.num 100)
  let data := orElseEmpty data0
  let ct := content_type_for endpoint
  let headers : Dict String :=
    [("Authorization", "Bearer " ++ access_token), ("Content-Type", ct)]
  let payload := if ct = "application/json" then Payload.jsonDumped data else Payload.rawDict data
  ⟨params, headers, api_base_url ++ endpoint, payload⟩

/-- The observable effect of lines 89-90 on the caller's params dict. In Python,
`params or ...` evaluates to the caller's own dict object when that dict is truthy
(non-empty), so the subsequent `setdefault` mutates the caller's object in place;
when the caller passed None or an empty dict, a fresh dict is created and the
caller's object (if any) is untouched. `used` is the dict the request is issued
with; `callerAfter` is the content of the caller's dict object after the call
(`none` when the caller passed no dict at all). -/
structure ParamsEffect where
  used : Dict PVal
  callerAfter : Option (Dict PVal)
deriving DecidableEq

def request_params_effect (caller : Option (Dict PVal)) : ParamsEffect :=
  match caller with
  | none => ⟨setdefault [] "limit" (.num 100), none⟩
  | some d =>
    if d = [] then
      ⟨setdefault [] "limit" (.num 100), some []⟩
    else
      let d' := setdefault d "limit" (.num 100)
      ⟨d', some d'⟩

/-- Outcome of one `request(method, url, ...)` attempt inside `_request` (lines
103-105): `failure` is any `RequestException` (network error, timeout, or the
`HTTPError` from `raise_for_status` on a non-2xx reply); `success` carries the parsed
JSON body, kept opaque. -/
inductive ReqOutcome where
  | failure
  | success (body : String)
deriving DecidableEq

def MAX_RETRIES : Nat := 5

/-- One run of the `_request` attempt loop: the final result, the number of HTTP
attempts actually performed, and the backoff sleeps that completed. -/
structure ExecTrace where
  result : Except PyError String
  attempts : Nat
  sleeps : List Nat

/-- The retry loop of `_request` (client.py lines 99-110), modelled under the minimal
syntactic repair of line 100: `while retries < MAX_RETRIES` lacks both a colon and a
body — a SyntaxError which in fact prevents the whole module from being imported —
and is read here as a stray line before the intended
`for attempt in range(MAX_RETRIES)` loop of line 101.
Runtime behaviour of the repaired loop, modelled faithfully: the first iteration
issues one HTTP attempt; on success it returns the parsed body; on a
`RequestException` the handler executes `retries += 1` and then
`time.sleep(2 ** retries)` — but `from time import time, sleep` (line 2) bound the
name `time` to the clock *function*, so the attribute lookup `time.sleep` raises
`AttributeError`, which no handler catches. The rest of the handler
(`if retries == max_retries`, itself a NameError since only `MAX_RETRIES` exists,
and the f-string naming the undefined `e`) and all further loop iterations are
unreachable. Hence at most one attempt is ever performed and no backoff sleep
completes. `upstream req n` is the outcome the network would give the n-th
(0-based) attempt at sending `req`. -/
def request_literal (req : PreparedRequest)
    (upstream : PreparedRequest → Nat → ReqOutcome) : ExecTrace :=
  match upstream req 0 with
  | .success body => ⟨.ok body, 1, []⟩
  | .failure => ⟨.error (.attributeError "sleep"), 1, []⟩

/-- `get` (client.py lines 112-132), after the token-refresh decorator has run: the
body invokes `self._request` twice with identical method, endpoint and params. The
`data` and `pagination` values extracted from the first response (lines 125-126) are
bound and then discarded; the second response is returned (lines 128-132).
`engine n` is the value produced by the n-th `_request` invocation of this call; the
second component of the result counts the `_request` invocations performed. -/
def get_literal (engine : Nat → String) : String × Nat :=
  let _response := engine 0
  (engine 1, 2)

/-- A public `get`/`post` call: the `_check_access_token` decorator (lines 65-70)
first runs `self._get_access_token()`, refreshing the stored token if it has
expired, and only afterwards does `_request` build its headers from the (now
current) `self.access_token` at line 92. -/
def public_request (now : Nat) (auth : AuthResult) (s : ClientState) (endpoint : String)
    (params0 data0 : Option (Dict PVal)) : Except PyError (PreparedRequest × ClientState) :=
  match get_access_token now auth s with
  | .error e => .error e
  | .ok (_, s') => .ok (prepare_request s'.access_token endpoint params0 data0, s')

/-! ## Helper lemmas about the dict model -/

theorem hasKey_eq_false_iff {α : Type} (d : Dict α) (k : String) :
    hasKey d k = false ↔ dget d k = none := by
  unfold hasKey
  cases dget d k <;> simp

theorem dget_append_absent {α : Type} (d : Dict α) (k : String) (v : α)
    (h : dget d k = none) : dget (d ++ [(k, v)]) k = some v := by
  induction d with
  | nil => simp [dget]
  | cons hd tl ih =>
    obtain ⟨k', v'⟩ := hd
    by_cases hk : k' = k
    · simp [dget, hk] at h
    · simp only [List.cons_append, dget, if_neg hk] at h ⊢
      exact ih h

theorem setdefault_absent {α : Type} (d : Dict α) (k : String) (v : α)
    (h : hasKey d k = false) : setdefault d k v = d ++ [(k, v)] := by
  simp [setdefault, h]

theorem setdefault_present {α : Type} (d : Dict α) (k : String) (v : α)
    (h : hasKey d k = true) : setdefault d k v = d := by
  simp [setdefault, h]

/-! ## Inversion lemmas for the token operations -/

/-- A successful credential exchange comes from a response free of HTTP error status
whose body carries both fields, and the stored expiry is the issuance time plus the
server-reported lifetime. -/
theorem request_new_token_ok_inv (now : Nat) (auth : AuthResult) (tok : String)
    (exp : Nat) (h : request_new_token now auth = .ok (tok, exp)) :
    ∃ r ei, auth = .response r ∧ raisesForStatus r.status = false ∧
      r.expires_in = some ei ∧ r.access_token = some tok ∧ exp = now + ei := by
  cases auth with
  | netError => simp [request_new_token] at h
  | response r =>
    by_cases hs : raisesForStatus r.status = true
    · simp [request_new_token, hs] at h
    · rw [Bool.not_eq_true] at hs
      cases hei : r.expires_in with
      | none => simp [request_new_token, hs, hei] at h
      | some ei =>
        cases hat : r.access_token with
        | none => simp [request_new_token, hs, hei, hat] at h
        | some t =>
          simp [request_new_token, hs, hei, hat] at h
          exact ⟨r, ei, rfl, hs, hei, by rw [hat, h.1], h.2.symm⟩

/-- A successful `_get_access_token` call returns exactly the token stored in the
resulting state; if the stored token had expired the returned token comes from a
fresh exchange, otherwise the state is untouched. -/
theorem get_access_token_ok_inv (now : Nat) (auth : AuthResult) (s : ClientState)
    (tok : String) (s' : ClientState)
    (h : get_access_token now auth s = .ok (tok, s')) :
    tok = s'.access_token ∧
    (s.token_expiry ≤ now →
      request_new_token now auth = .ok (tok, s'.token_expiry)) ∧
    (¬ s.token_expiry ≤ now → s' = s ∧ tok = s.access_token) := by
  unfold get_access_token at h
  by_cases hc : s.token_expiry ≤ now
  · rw [if_pos hc] at h
    cases hr : request_new_token now auth with
    | error e => rw [hr] at h; simp at h
    | ok pr =>
      obtain ⟨t, e⟩ := pr
      rw [hr] at h
      simp at h
      obtain ⟨h1, h2⟩ := h
      refine ⟨?_, ?_, fun hn => absurd hc hn⟩
      · rw [← h2]; exact h1.symm ▸ rfl
      · intro _
        rw [← h2, ← h1]
  · rw [if_neg hc] at h
    simp at h
    obtain ⟨h1, h2⟩ := h
    exact ⟨h2 ▸ h1.symm, fun hle => absurd hle hc, fun _ => ⟨h2.symm, h1.symm⟩⟩

/-! ## C1: freshness of the token returned by `_get_access_token` -/

/-- C1 counterexample: with a stored token expired at time 10 and an exchange that
reports `expires_in = 0`, `_get_access_token` does perform a new exchange but returns
a token whose expiry is exactly 10, so the claimed freshness `now < expires_at` fails
at the moment of return. -/
theorem getAccessToken_expiresInZero_not_fresh :
    get_access_token 10 (.response ⟨200, some "new", some 0⟩) ⟨"old", 5⟩
      = .ok ("new", ⟨"new", 10⟩) ∧ ¬ ((10 : Nat) < 10) :=
  ⟨rfl, by decide⟩

/-- C1 (amended): every successful `_get_access_token` call returns a token with
`now ≤ expires_at`, the inequality strict when no refresh was needed or the fresh
exchange reported a positive `expires_in`; and whenever the stored token has expired
(`now >= token_expiry`, which covers the state left by an `expires_in = 0` issuance)
the call performs a new credential exchange instead of reusing the stored token. -/
theorem getAccessToken_fresh_or_exchanged (now : Nat) (auth : AuthResult)
    (s : ClientState) (tok : String) (s' : ClientState)
    (h : get_access_token now auth s = .ok (tok, s')) :
    now ≤ s'.token_expiry ∧
    (s.token_expiry ≤ now →
      ∃ r ei, auth = .response r ∧ r.access_token = some tok ∧
        r.expires_in = some ei ∧ s'.token_expiry = now + ei ∧
        (0 < ei → now < s'.token_expiry)) ∧
    (now < s.token_expiry → s' = s ∧ tok = s.access_token ∧ now < s'.token_expiry) := by
  obtain ⟨htok, hexp, hsame⟩ := get_access_token_ok_inv now auth s tok s' h
  by_cases hc : s.token_expiry ≤ now
  · obtain ⟨r, ei, har, hst, hei, hat, hexpeq⟩ :=
      request_new_token_ok_inv now auth tok s'.token_expiry (hexp hc)
    refine ⟨?_, ?_, ?_⟩
    · rw [hexpeq]; exact Nat.le_add_right now ei
    · intro _
      exact ⟨r, ei, har, hat, hei, hexpeq, fun hpos => by
        rw [hexpeq]; exact Nat.lt_add_of_pos_right hpos⟩
    · intro hlt
      exact absurd hc (Nat.not_le_of_lt hlt)
  · obtain ⟨hs', htok'⟩ := hsame hc
    have hlt : now < s.token_expiry := Nat.lt_of_not_le hc
    refine ⟨?_, fun hle => absurd hle hc, fun _ => ⟨hs', htok', ?_⟩⟩
    · rw [hs']; exact Nat.le_of_lt hlt
    · rw [hs']; exact hlt

/-- Witness for the amended C1 theorem: a fresh exchange at time 10 with
`expires_in = 60` yields a token valid until 70, and the theorem applies. -/
theorem getAccessToken_fresh_or_exchanged_witness :
    get_access_token 10 (.response ⟨200, some "new", some 60⟩) ⟨"old", 5⟩
      = .ok ("new", ⟨"new", 70⟩) ∧ (10 : Nat) ≤ (ClientState.mk "new" 70).token_expiry :=
  ⟨rfl, (getAccessToken_fresh_or_exchanged 10 (.response ⟨200, some "new", some 60⟩)
    ⟨"old", 5⟩ "new" ⟨"new", 70⟩ rfl).1⟩

/-! ## C2 and C3: the `_request` retry loop -/

/-- C2: with an upstream that fails on every attempt, the (syntax-repaired) retry
loop of `_request` performs exactly one HTTP attempt and aborts with the
`AttributeError` raised by `time.sleep` — not the claimed `MAX_RETRIES` attempts
ending in an exhaustion error naming the endpoint. -/
theorem request_always_fail_one_attempt :
    request_literal (prepare_request "tok" "products" none none) (fun _ _ => .failure)
      = ⟨.error (.attributeError "sleep"), 1, []⟩ ∧ (1 : Nat) ≠ MAX_RETRIES :=
  ⟨rfl, by decide⟩

/-- C3: with an upstream that fails on the first attempt and would succeed on the
second (N = 2), the loop never reaches the second attempt: the `AttributeError` from
`time.sleep` aborts the call after one attempt with no completed backoff sleep,
instead of returning the success body after 2 attempts separated by a backoff
of 2^1. -/
theorem request_transient_fail_no_retry :
    request_literal (prepare_request "tok" "products" none none)
        (fun _ n => if n = 0 then .failure else .success "body")
      = ⟨.error (.attributeError "sleep"), 1, []⟩ :=
  rfl

/-! ## C4: error classification of `_request_new_token` -/

/-- C4 counterexample: a 200 reply whose body lacks `expires_in` makes
`_request_new_token` raise a `KeyError`, which is not the error the specification
calls `AuthenticationError`. -/
theorem requestNewToken_missing_field_keyError :
    request_new_token 0 (.response ⟨200, some "tok", none⟩)
      = .error (.keyError "expires_in") ∧
    isAuthError (.keyError "expires_in") = false :=
  ⟨rfl, rfl⟩

/-- C4 (amended): `_request_new_token` fails with the `RuntimeError` the spec calls
`AuthenticationError` when the network call errors or times out and when the reply
has an HTTP error status (4xx/5xx); but when the reply body lacks `expires_in` or
`access_token` a `KeyError` escapes instead. Those are the only errors: every failure
is either the authentication error or a `KeyError` on one of the two fields. -/
theorem requestNewToken_error_classification (now : Nat) (auth : AuthResult) :
    (auth = .netError → request_new_token now auth = .error (.runtimeError authFailMsg)) ∧
    (∀ r, auth = .response r → raisesForStatus r.status = true →
      request_new_token now auth = .error (.runtimeError authFailMsg)) ∧
    (∀ r, auth = .response r → raisesForStatus r.status = false → r.expires_in = none →
      request_new_token now auth = .error (.keyError "expires_in")) ∧
    (∀ r ei, auth = .response r → raisesForStatus r.status = false →
      r.expires_in = some ei → r.access_token = none →
      request_new_token now auth = .error (.keyError "access_token")) ∧
    (∀ e, request_new_token now auth = .error e →
      isAuthError e = true ∨ e = .keyError "expires_in" ∨ e = .keyError "access_token") := by
  refine ⟨?_, ?_, ?_, ?_, ?_⟩
  · intro ha; subst ha; rfl
  · intro r ha hs; subst ha; simp [request_new_token, hs]
  · intro r ha hs hei; subst ha; simp [request_new_token, hs, hei]
  · intro r ei ha hs hei hat; subst ha; simp [request_new_token, hs, hei, hat]
  · intro e he
    cases auth with
    | netError =>
      simp [request_new_token] at he
      subst he; left; rfl
    | response r =>
      by_cases hs : raisesForStatus r.status = true
      · simp [request_new_token, hs] at he
        subst he; left; rfl
      · rw [Bool.not_eq_true] at hs
        cases hei : r.expires_in with
        | none =>
          simp [request_new_token, hs, hei] at he
          subst he; right; left; rfl
        | some ei =>
          cases hat : r.access_token with
          | none =>
            simp [request_new_token, hs, hei, hat] at he
            subst he; right; right; rfl
          | some t => simp [request_new_token, hs, hei, hat] at he

/-- Witness for the amended C4 theorem: a network error yields exactly the
authentication error. -/
theorem requestNewToken_error_classification_witness :
    request_new_token 0 .netError = .error (.runtimeError authFailMsg) :=
  (requestNewToken_error_classification 0 .netError).1 rfl

/-! ## C5: eager token fetch at construction -/

/-- C5 counterexample: an authentication endpoint that fails by answering 200 with a
body lacking `expires_in` makes construction propagate a `KeyError` — not the error
the specification calls `AuthenticationError` — so the claim that every failing
endpoint makes construction raise `AuthenticationError` is false. -/
theorem init_client_missing_field_keyError :
    init_client 0 (.response ⟨200, some "tok", none⟩)
      = .error (.keyError "expires_in") ∧
    isAuthError (.keyError "expires_in") = false :=
  ⟨rfl, rfl⟩

/-- C5 (amended): construction (line 32) performs the eager token fetch. Any failure
of the exchange propagates out of the constructor and no client state — hence no
cached token — exists; an endpoint failing at the HTTP level (network error,
timeout, 4xx/5xx) makes construction raise exactly the `RuntimeError` the
specification calls `AuthenticationError`, while a success-status reply whose body
lacks `expires_in` (or, with `expires_in` present, lacks `access_token`) makes
construction propagate the corresponding `KeyError` instead; a successful exchange
stores the fetched token and expiry. -/
theorem init_client_eager_fetch (now : Nat) (auth : AuthResult) :
    (∀ e, request_new_token now auth = .error e →
      init_client now auth = .error e ∧ ∀ st, init_client now auth ≠ .ok st) ∧
    ((auth = .netError ∨ ∃ r, auth = .response r ∧ raisesForStatus r.status = true) →
      init_client now auth = .error (.runtimeError authFailMsg)) ∧
    (∀ r, auth = .response r → raisesForStatus r.status = false →
      r.expires_in = none →
      init_client now auth = .error (.keyError "expires_in")) ∧
    (∀ r ei, auth = .response r → raisesForStatus r.status = false →
      r.expires_in = some ei → r.access_token = none →
      init_client now auth = .error (.keyError "access_token")) ∧
    (∀ tok exp, request_new_token now auth = .ok (tok, exp) →
      init_client now auth = .ok ⟨tok, exp⟩) := by
  refine ⟨?_, ?_, ?_, ?_, ?_⟩
  · intro e he
    constructor
    · simp [init_client, he]
    · intro st
      simp [init_client, he]
  · intro hfail
    rcases hfail with ha | ⟨r, ha, hs⟩
    · subst ha; rfl
    · subst ha; simp [init_client, request_new_token, hs]
  · intro r ha hs hei
    subst ha; simp [init_client, request_new_token, hs, hei]
  · intro r ei ha hs hei hat
    subst ha; simp [init_client, request_new_token, hs, hei, hat]
  · intro tok exp hok
    simp [init_client, hok]

/-- Witness for the C5 theorem: a network error at construction time yields the
authentication error and no constructed state. -/
theorem init_client_eager_fetch_witness :
    request_new_token 0 .netError = .error (.runtimeError authFailMsg) ∧
    init_client 0 .netError = .error (.runtimeError authFailMsg) :=
  ⟨rfl, ((init_client_eager_fetch 0 .netError).1 (.runtimeError authFailMsg) rfl).1⟩

/-! ## C6: content-type policy and body serialization -/

/-- C6: the request built by `_request` sends endpoint `batch` with Content-Type
`text/plain` and the body passed through unserialized; endpoint
`opportunities/search` with Content-Type `application/json` and the body
JSON-serialized; and any endpoint absent from the policy table likewise defaults to
`application/json` with a JSON-serialized body. -/
theorem content_type_policy (tok : String) (p d : Option (Dict PVal))
    (endpoint : String) (h : dget post_content_type endpoint = none) :
    (dget (prepare_request tok "batch" p d).headers "Content-Type"
        = some "text/plain" ∧
      (prepare_request tok "batch" p d).payload = .rawDict (orElseEmpty d)) ∧
    (dget (prepare_request tok "opportunities/search" p d).headers "Content-Type"
        = some "application/json" ∧
      (prepare_request tok "opportunities/search" p d).payload
        = .jsonDumped (orElseEmpty d)) ∧
    (dget (prepare_request tok endpoint p d).headers "Content-Type"
        = some "application/json" ∧
      (prepare_request tok endpoint p d).payload = .jsonDumped (orElseEmpty d)) := by
  have hu : content_type_for endpoint = "application/json" := by
    simp [content_type_for, h]
  refine ⟨⟨rfl, rfl⟩, ⟨rfl, rfl⟩, ?_, ?_⟩
  · show dget [("Authorization", "Bearer " ++ tok),
      ("Content-Type", content_type_for endpoint)] "Content-Type"
      = some "application/json"
    rw [hu]
    simp [dget]
  · show (if content_type_for endpoint = "application/json"
        then Payload.jsonDumped (orElseEmpty d)
        else Payload.rawDict (orElseEmpty d)) = Payload.jsonDumped (orElseEmpty d)
    rw [hu]
    simp

/-- Witness for the C6 theorem: `products` is absent from the policy table and its
requests default to `application/json`. -/
theorem content_type_policy_witness :
    dget post_content_type "products" = none ∧
    dget (prepare_request "tok" "products" none none).headers "Content-Type"
      = some "application/json" :=
  ⟨rfl, (content_type_policy "tok" none none "products" rfl).2.2.1⟩

/-! ## C7: default limit parameter -/

/-- C7: a call whose params lack the key `limit` is issued with `limit = 100`, and a
call whose params already bind `limit` keeps the caller's params unchanged, so the
caller's value is sent. -/
theorem default_limit_param (tok endpoint : String) (p : Dict PVal) :
    (hasKey p "limit" = false →
      dget (prepare_request tok endpoint (some p) none).params "limit"
        = some (.num 100)) ∧
    (∀ v, dget p "limit" = some v →
      (prepare_request tok endpoint (some p) none).params = p ∧
      dget (prepare_request tok endpoint (some p) none).params "limit" = some v) := by
  constructor
  · intro habs
    by_cases hp : p = []
    · subst hp; rfl
    · have hparams : (prepare_request tok endpoint (some p) none).params
          = p ++ [("limit", PVal.num 100)] := by
        simp [prepare_request, orElseEmpty, hp, setdefault, habs]
      rw [hparams]
      exact dget_append_absent p "limit" (.num 100)
        ((hasKey_eq_false_iff p "limit").mp habs)
  · intro v hv
    have hp : p ≠ [] := by
      intro he; subst he; simp [dget] at hv
    have hk : hasKey p "limit" = true := by
      simp [hasKey, hv]
    have hparams : (prepare_request tok endpoint (some p) none).params = p := by
      simp [prepare_request, orElseEmpty, hp, setdefault, hk]
    exact ⟨hparams, by rw [hparams]; exact hv⟩

/-- Witness for the C7 theorem: a params dict without `limit` gains `limit = 100`,
and a caller-supplied `limit = 25` is preserved. -/
theorem default_limit_param_witness :
    hasKey [("q", PVal.str "x")] "limit" = false ∧
    dget (prepare_request "tok" "products" (some [("q", PVal.str "x")]) none).params
      "limit" = some (.num 100) ∧
    dget [("limit", PVal.num 25)] "limit" = some (.num 25) ∧
    (prepare_request "tok" "products" (some [("limit", PVal.num 25)]) none).params
      = [("limit", PVal.num 25)] :=
  ⟨rfl, (default_limit_param "tok" "products" [("q", PVal.str "x")]).1 rfl, rfl,
    ((default_limit_param "tok" "products" [("limit", PVal.num 25)]).2
      (.num 25) rfl).1⟩

/-! ## C8: `get` issues two requests per call -/

/-- C8: `get` invokes `_request` twice per call and returns the second response: with
an engine whose two invocations return different bodies, the observed result is the
second invocation's body and two `_request` invocations are performed where the
claim allows exactly one. -/
theorem get_double_request :
    get_literal (fun n => if n = 0 then "first" else "second") = ("second", 2) ∧
    (2 : Nat) ≠ 1 :=
  ⟨rfl, by decide⟩

/-! ## C9: the Authorization header carries the freshly checked token -/

/-- C9: on the public call path the Authorization header is exactly
`Bearer <token>` for the token `_get_access_token` returned on this very call (the
decorator runs before `_request` reads `self.access_token`); and when the stored
token had expired, that token comes from a fresh credential exchange performed by
this call, not from the stale cache. -/
theorem authorization_header_fresh_token (now : Nat) (auth : AuthResult)
    (s : ClientState) (endpoint : String) (p d : Option (Dict PVal))
    (req : PreparedRequest) (s' : ClientState)
    (h : public_request now auth s endpoint p d = .ok (req, s')) :
    get_access_token now auth s = .ok (s'.access_token, s') ∧
    dget req.headers "Authorization" = some ("Bearer " ++ s'.access_token) ∧
    (s.token_expiry ≤ now →
      request_new_token now auth = .ok (s'.access_token, s'.token_expiry)) := by
  unfold public_request at h
  cases hg : get_access_token now auth s with
  | error e => rw [hg] at h; simp at h
  | ok pr =>
    obtain ⟨tok, s₁⟩ := pr
    rw [hg] at h
    simp at h
    obtain ⟨hreq, hs⟩ := h
    obtain ⟨htok, hfresh, _⟩ := get_access_token_ok_inv now auth s tok s₁ hg
    subst hs
    refine ⟨?_, ?_, ?_⟩
    · rw [← htok]
    · rw [← hreq]
      simp [prepare_request, dget]
    · intro hle
      rw [← htok]
      exact hfresh hle

/-- Witness for the C9 theorem: an expired stored token at time 10 is replaced by the
freshly exchanged one, and the issued request carries it in the Authorization
header. -/
theorem authorization_header_fresh_token_witness :
    public_request 10 (.response ⟨200, some "new", some 60⟩) ⟨"old", 5⟩ "products"
        none none
      = .ok (prepare_request "new" "products" none none, ⟨"new", 70⟩) ∧
    dget (prepare_request "new" "products" none none).headers "Authorization"
      = some ("Bearer " ++ "new") :=
  ⟨rfl, (authorization_header_fresh_token 10 (.response ⟨200, some "new", some 60⟩)
    ⟨"old", 5⟩ "products" none none (prepare_request "new" "products" none none)
    ⟨"new", 70⟩ rfl).2.1⟩

/-! ## C10: in-place mutation of the caller's params dict -/

/-- C10: lines 89-90 reuse the caller's dict object whenever it is non-empty
(truthy), so a non-empty params dict lacking `limit` is mutated in place: after the
call the caller's dict has gained the binding (`limit`, 100) and differs from what
the caller passed. A missing or empty dict is replaced by a fresh dict and the
caller's object, if any, stays untouched. -/
theorem params_inplace_mutation (p : Dict PVal) :
    (p ≠ [] → hasKey p "limit" = false →
      (request_params_effect (some p)).callerAfter
        = some (p ++ [("limit", PVal.num 100)]) ∧
      (request_params_effect (some p)).callerAfter ≠ some p) ∧
    (request_params_effect (some [])).callerAfter = some [] ∧
    (request_params_effect none).callerAfter = none := by
  refine ⟨?_, rfl, rfl⟩
  intro hp habs
  have hafter : (request_params_effect (some p)).callerAfter
      = some (p ++ [("limit", PVal.num 100)]) := by
    simp [request_params_effect, hp, setdefault, habs]
  refine ⟨hafter, ?_⟩
  rw [hafter]
  intro hcontra
  have hlen := congrArg List.length (Option.some.inj hcontra)
  simp at hlen

/-- Witness for the C10 theorem: a caller dict holding one unrelated binding comes
back with `limit = 100` appended to the very same object. -/
theorem params_inplace_mutation_witness :
    ([("q", PVal.str "x")] : Dict PVal) ≠ [] ∧
    hasKey [("q", PVal.str "x")] "limit" = false ∧
    (request_params_effect (some [("q", PVal.str "x")])).callerAfter
      = some [("q", PVal.str "x"), ("limit", PVal.num 100)] :=
  ⟨by decide, rfl,
    ((params_inplace_mutation [("q", PVal.str "x")]).1 (by decide) rfl).1⟩

end SellsyAPI
